import Mathlib

/-!
Verification of the IMP scoring engine of `jdandrade/impetus-dota2`.

Shallow embedding of:
* `services/imp-engine/app/core/scoring.py` (score calculator, grade and
  percentile mappers, contributing-factor ranker),
* `services/imp-engine/app/models/request.py` and `response.py` (data model),
* `services/professor-impetus/app/services/opendota.py` (role classifier).

Modelling conventions: Python floats are exact rationals (`ℚ`); Python dicts
are association lists kept in insertion order (all keys are distinct);
`datetime.now` is passed as an explicit `now : String` parameter; the
stable `sorted` is `List.insertionSort` with a total, transitive comparison
(any stable sort agrees with Timsort on such a comparison).
-/

namespace ImpEngine

/-- Python `MatchStats` from `app/models/request.py`: integer counters.
Pydantic validates every field with `ge=0` (and `1 ≤ level ≤ 30`), so the
counters are modelled as `ℕ`. -/
structure MatchStats where
  kills : ℕ
  deaths : ℕ
  assists : ℕ
  last_hits : ℕ
  denies : ℕ
  gpm : ℕ
  xpm : ℕ
  hero_damage : ℕ
  tower_damage : ℕ
  hero_healing : ℕ
  net_worth : ℕ
  level : ℕ

/-- Python `MatchContext` from `app/models/request.py`. -/
structure MatchContext where
  team_result : String
  game_mode : String
  avg_rank : ℕ
  is_radiant : Bool

/-- Python `CalculateIMPRequest` from `app/models/request.py`.  The optional
`benchmarks` field is omitted: `calculate_imp_score` never reads it. -/
structure CalculateIMPRequest where
  match_id : ℕ
  player_slot : ℕ
  hero_id : ℕ
  hero_name : String
  role : String
  duration_seconds : ℕ
  stats : MatchStats
  context : MatchContext

/-- The `Literal["positive", "neutral", "negative"]` impact type of
`ContributingFactor` in `app/models/response.py`. -/
inductive Impact where
  | positive
  | neutral
  | negative
deriving DecidableEq

/-- The `Literal["S", "A", "B", "C", "D", "F"]` grade type used in
`app/models/response.py` and `scoring.py`. -/
inductive Grade where
  | S
  | A
  | B
  | C
  | D
  | F
deriving DecidableEq

/-- Python `ContributingFactor` from `app/models/response.py`. -/
structure ContributingFactor where
  name : String
  value : ℚ
  impact : Impact
  weight : ℚ

/-- Python `IMPData` from `app/models/response.py`. -/
structure IMPData where
  imp_score : ℚ
  grade : Grade
  percentile : ℤ
  contributing_factors : List ContributingFactor
  summary : String

/-- Python `IMPMeta` from `app/models/response.py`. -/
structure IMPMeta where
  engine_version : String
  calculated_at : String

/-- Python `CalculateIMPResponse` from `app/models/response.py`. -/
structure CalculateIMPResponse where
  success : Bool
  data : IMPData
  meta : IMPMeta

/-- Python `int(x)` on a float: truncation toward zero. -/
def pyInt (x : ℚ) : ℤ := if 0 ≤ x then ⌊x⌋ else ⌈x⌉

/-- Python `round(x)` to an integer: round to nearest, ties to even. -/
def pyRoundInt (x : ℚ) : ℤ :=
  if x - ⌊x⌋ = 1 / 2 then (if 2 ∣ ⌊x⌋ then ⌊x⌋ else ⌊x⌋ + 1) else round x

/-- Python `round(x, d)`: round to `d` decimal places, ties to even. -/
def pyRound (x : ℚ) (d : ℕ) : ℚ := (pyRoundInt (x * 10 ^ d) : ℚ) / 10 ^ d

/-- Python `ENGINE_VERSION` from `scoring.py`. -/
def ENGINE_VERSION : String := "0.6.0-penta-role"

/-- Python `WIN_BONUS` from `scoring.py`. -/
def WIN_BONUS : ℚ := 12.0

/-- Python `LOSS_PENALTY` from `scoring.py`. -/
def LOSS_PENALTY : ℚ := -8.0

/-- Python `POSITION_1_COEFFICIENTS` from `scoring.py` (dict in insertion order). -/
def POSITION_1_COEFFICIENTS : List (String × ℚ) := [
  ("intercept", -4.3649),
  ("deaths_per_min", -23.912013),
  ("assists_per_min", 16.272023),
  ("kills_per_min", -14.740573),
  ("death_rate", -13.112811),
  ("kills", 1.971527),
  ("deaths", -1.276859),
  ("assists", 0.838599),
  ("ka_ratio", -0.48297),
  ("duration_minutes", -0.35762),
  ("level", 0.32737),
  ("denies", 0.265896),
  ("kda_ratio", 0.210637),
  ("last_hits", 0.022987),
  ("gpm", 0.012919),
  ("healing_per_min", 0.005106),
  ("tower_damage_per_min", 0.004401),
  ("farm_efficiency", 0.003331),
  ("xpm", -0.000904),
  ("hero_damage_per_min", 0.000792),
  ("networth", -0.000489),
  ("damage_efficiency", -0.000459),
  ("hero_damage", -0.000228),
  ("hero_healing", 0.000188)]

/-- Python `POSITION_2_COEFFICIENTS` from `scoring.py`. -/
def POSITION_2_COEFFICIENTS : List (String × ℚ) := [
  ("intercept", -2.6509),
  ("death_rate", -13.851965),
  ("assists_per_min", 8.010835),
  ("deaths_per_min", -6.651517),
  ("kills_per_min", -5.38882),
  ("ka_ratio", 2.329863),
  ("kills", 1.654526),
  ("deaths", -1.622213),
  ("assists", 0.899231),
  ("kda_ratio", 0.46211),
  ("denies", 0.393173),
  ("level", 0.378092),
  ("duration_minutes", -0.278948),
  ("healing_per_min", -0.031113),
  ("gpm", 0.017591),
  ("last_hits", 0.015407),
  ("farm_efficiency", -0.006813),
  ("tower_damage_per_min", 0.005822),
  ("xpm", -0.001969),
  ("damage_efficiency", -0.001875),
  ("hero_healing", 0.000936),
  ("hero_damage_per_min", 0.000886),
  ("hero_damage", -0.000251),
  ("networth", -0.000212)]

/-- Python `POSITION_3_COEFFICIENTS` from `scoring.py`. -/
def POSITION_3_COEFFICIENTS : List (String × ℚ) := [
  ("intercept", -4.4639),
  ("assists_per_min", 19.072005),
  ("death_rate", -15.327975),
  ("deaths_per_min", -7.131863),
  ("ka_ratio", 4.829715),
  ("deaths", -1.567984),
  ("kills", 1.37336),
  ("level", 0.756783),
  ("assists", 0.630882),
  ("kda_ratio", 0.480432),
  ("kills_per_min", 0.393051),
  ("denies", 0.375646),
  ("duration_minutes", -0.257055),
  ("gpm", 0.015043),
  ("last_hits", 0.013532),
  ("healing_per_min", 0.009469),
  ("hero_damage_per_min", -0.00485),
  ("farm_efficiency", -0.00485),
  ("xpm", -0.003559),
  ("damage_efficiency", -0.003071),
  ("tower_damage_per_min", -0.002158),
  ("networth", -0.000475)]

/-- Python `POSITION_4_COEFFICIENTS` from `scoring.py`. -/
def POSITION_4_COEFFICIENTS : List (String × ℚ) := [
  ("intercept", -2.5562),
  ("deaths_per_min", -22.070328),
  ("death_rate", -13.418473),
  ("assists_per_min", 9.726072),
  ("ka_ratio", 8.79605),
  ("kills_per_min", -4.518062),
  ("kills", 1.459887),
  ("deaths", -1.296564),
  ("assists", 0.905028),
  ("level", 0.734925),
  ("duration_minutes", -0.447605),
  ("denies", 0.246111),
  ("kda_ratio", 0.164577),
  ("last_hits", 0.02553),
  ("tower_damage_per_min", -0.021798),
  ("farm_efficiency", -0.007705),
  ("xpm", -0.0077),
  ("gpm", 0.003424),
  ("healing_per_min", 0.002528),
  ("hero_damage_per_min", 0.001517),
  ("tower_damage", 0.00067),
  ("hero_damage", -0.000338),
  ("hero_healing", 0.000171)]

/-- Python `POSITION_5_COEFFICIENTS` from `scoring.py`. -/
def POSITION_5_COEFFICIENTS : List (String × ℚ) := [
  ("intercept", -1.1954),
  ("deaths_per_min", -20.54682),
  ("death_rate", -13.612081),
  ("assists_per_min", 11.235089),
  ("ka_ratio", 7.676888),
  ("deaths", -1.524418),
  ("kills", 1.305451),
  ("assists", 0.849128),
  ("level", 0.681932),
  ("denies", 0.425801),
  ("duration_minutes", -0.33586),
  ("kills_per_min", 0.137809),
  ("kda_ratio", 0.039967),
  ("last_hits", 0.023022),
  ("farm_efficiency", -0.022223),
  ("gpm", 0.020422),
  ("xpm", -0.006087),
  ("tower_damage_per_min", -0.004541),
  ("hero_damage_per_min", -0.003115),
  ("healing_per_min", 0.002395),
  ("damage_efficiency", -0.000368),
  ("tower_damage", 0.000257),
  ("hero_damage", -0.000197),
  ("networth", -0.000182)]

/-- Python `ROLE_TO_POSITION` from `scoring.py`. -/
def ROLE_TO_POSITION : List (String × ℕ) :=
  [("carry", 1), ("mid", 2), ("offlane", 3), ("support", 4), ("hard_support", 5)]

/-- Python `POSITION_COEFFICIENTS` from `scoring.py`. -/
def POSITION_COEFFICIENTS : List (ℕ × List (String × ℚ)) :=
  [(1, POSITION_1_COEFFICIENTS), (2, POSITION_2_COEFFICIENTS),
   (3, POSITION_3_COEFFICIENTS), (4, POSITION_4_COEFFICIENTS),
   (5, POSITION_5_COEFFICIENTS)]

/-- Python `IMP_MAX` from `scoring.py`. -/
def IMP_MAX : ℚ := 65.0

/-- Python `IMP_MIN` from `scoring.py`. -/
def IMP_MIN : ℚ := -65.0

/-- Python `GRADE_THRESHOLDS` from `scoring.py`, in source (descending) order. -/
def GRADE_THRESHOLDS : List (ℚ × Grade) :=
  [(40, Grade.S), (20, Grade.A), (5, Grade.B), (-5, Grade.C),
   (-20, Grade.D), (-65, Grade.F)]

/-- Python `STAT_DISPLAY_NAMES` from `scoring.py`. -/
def STAT_DISPLAY_NAMES : List (String × String) := [
  ("deaths", "Deaths"),
  ("kills", "Kills"),
  ("assists", "Assists"),
  ("gpm", "GPM"),
  ("xpm", "XPM"),
  ("kills_per_min", "Kills/min"),
  ("deaths_per_min", "Deaths/min"),
  ("assists_per_min", "Assists/min"),
  ("tower_damage", "Tower Damage"),
  ("tower_damage_per_min", "Tower Dmg/min"),
  ("hero_damage", "Hero Damage"),
  ("hero_damage_per_min", "Hero Dmg/min"),
  ("networth", "Net Worth"),
  ("level", "Level"),
  ("hero_healing", "Healing"),
  ("healing_per_min", "Healing/min"),
  ("kda_ratio", "KDA Ratio"),
  ("ka_ratio", "K+A Rate"),
  ("death_rate", "Death Rate"),
  ("farm_efficiency", "Farm Rate"),
  ("damage_efficiency", "Dmg Efficiency"),
  ("duration_minutes", "Game Length"),
  ("last_hits", "Last Hits"),
  ("denies", "Denies")]

/-- The loop body of `_get_grade`: walk the threshold list in order, first
threshold met wins. -/
def gradeFromThresholds : List (ℚ × Grade) → ℚ → Grade
  | [], _ => Grade.F
  | (threshold, g) :: rest, score =>
      if score ≥ threshold then g else gradeFromThresholds rest score

/-- Python `_get_grade` from `scoring.py`. -/
def _get_grade (score : ℚ) : Grade := gradeFromThresholds GRADE_THRESHOLDS score

/-- Python `_clamp` from `scoring.py`: `max(min_val, min(max_val, value))`. -/
def _clamp (value min_val max_val : ℚ) : ℚ := max min_val (min max_val value)

/-- Python `_calculate_percentile_from_score` from `scoring.py`.  Note the Python
code applies `int(...)` (truncation) to the clamped value. -/
def _calculate_percentile_from_score (score : ℚ) : ℤ :=
  pyInt (_clamp ((score - IMP_MIN) / (IMP_MAX - IMP_MIN) * 100) 0 100)

/-- Python `_get_position` from `scoring.py`: unknown roles default to 1. -/
def _get_position (role : String) : ℕ := (ROLE_TO_POSITION.lookup role).getD 1

/-- Python `_get_role_description` from `scoring.py`. -/
def _get_role_description (position : ℕ) : String :=
  (([(1, "Carry"), (2, "Mid"), (3, "Offlane"), (4, "Support"),
     (5, "Hard Support")] : List (ℕ × String)).lookup position).getD "Unknown"

/-- Python `is_winner = request.context.team_result == "win"` in
`calculate_imp_score`. -/
def is_winner (req : CalculateIMPRequest) : Bool := req.context.team_result == "win"

/-- Python `duration_minutes = request.duration_seconds / 60.0`. -/
def duration_minutes (req : CalculateIMPRequest) : ℚ :=
  (req.duration_seconds : ℚ) / 60

/-- Python `safe_duration = max(duration_minutes, 1.0)`. -/
def safe_duration (req : CalculateIMPRequest) : ℚ := max (duration_minutes req) 1

/-- Step A of `calculate_imp_score`: `position = _get_position(role)`. -/
def position (req : CalculateIMPRequest) : ℕ := _get_position req.role

/-- Step A of `calculate_imp_score`:
`coefficients = POSITION_COEFFICIENTS.get(position, POSITION_1_COEFFICIENTS)`. -/
def coefficients (req : CalculateIMPRequest) : List (String × ℚ) :=
  (POSITION_COEFFICIENTS.lookup (position req)).getD POSITION_1_COEFFICIENTS

/-- Step B of `calculate_imp_score`: the `stat_values` dict, in source
(insertion) order, with the per-minute, engineered and guard expressions
exactly as written in the Python. -/
def stat_values (req : CalculateIMPRequest) : List (String × ℚ) :=
  [("kills", (req.stats.kills : ℚ)),
   ("deaths", (req.stats.deaths : ℚ)),
   ("assists", (req.stats.assists : ℚ)),
   ("gpm", (req.stats.gpm : ℚ)),
   ("xpm", (req.stats.xpm : ℚ)),
   ("networth", (req.stats.net_worth : ℚ)),
   ("level", (req.stats.level : ℚ)),
   ("hero_damage", (req.stats.hero_damage : ℚ)),
   ("tower_damage", (req.stats.tower_damage : ℚ)),
   ("hero_healing", (req.stats.hero_healing : ℚ)),
   ("last_hits", (req.stats.last_hits : ℚ)),
   ("denies", (req.stats.denies : ℚ)),
   ("kills_per_min", (req.stats.kills : ℚ) / safe_duration req),
   ("deaths_per_min", (req.stats.deaths : ℚ) / safe_duration req),
   ("assists_per_min", (req.stats.assists : ℚ) / safe_duration req),
   ("hero_damage_per_min", (req.stats.hero_damage : ℚ) / safe_duration req),
   ("tower_damage_per_min", (req.stats.tower_damage : ℚ) / safe_duration req),
   ("healing_per_min", (req.stats.hero_healing : ℚ) / safe_duration req),
   ("kda_ratio", ((req.stats.kills : ℚ) + (req.stats.assists : ℚ))
      / ((max req.stats.deaths 1 : ℕ) : ℚ)),
   ("ka_ratio", ((req.stats.kills : ℚ) + (req.stats.assists : ℚ))
      / safe_duration req),
   ("death_rate", (req.stats.deaths : ℚ) / safe_duration req),
   ("farm_efficiency", (req.stats.net_worth : ℚ) / safe_duration req),
   ("damage_efficiency", if req.stats.net_worth > 0 then
      (req.stats.hero_damage : ℚ) / ((max req.stats.net_worth 1 : ℕ) : ℚ)
    else 0),
   ("duration_minutes", duration_minutes req)]

/-- Step C of `calculate_imp_score`: the `contributions` dict, built by
iterating the coefficient table in order, skipping `intercept` and
`is_victory`, and keeping only names present in `stat_values`. -/
def contributions (req : CalculateIMPRequest) : List (String × ℚ) :=
  (coefficients req).filterMap fun p =>
    if p.1 = "intercept" ∨ p.1 = "is_victory" then none
    else
      match (stat_values req).lookup p.1 with
      | some v => some (p.1, v * p.2)
      | none => none

/-- Steps C and D of `calculate_imp_score`: `raw_imp` is the intercept plus
all recorded contributions plus the out-of-model win/loss adjustment. -/
def raw_imp (req : CalculateIMPRequest) : ℚ :=
  ((coefficients req).lookup "intercept").getD 0
    + ((contributions req).map Prod.snd).sum
    + (if is_winner req then WIN_BONUS else LOSS_PENALTY)

/-- Step E of `calculate_imp_score`: `final_imp = _clamp(raw_imp, IMP_MIN,
IMP_MAX)`. -/
def final_imp (req : CalculateIMPRequest) : ℚ := _clamp (raw_imp req) IMP_MIN IMP_MAX

/-- The comparison used by `sorted(contributions.items(), key=lambda x:
abs(x[1]), reverse=True)`: descending absolute contribution. -/
def contribDesc (p q : String × ℚ) : Prop := |q.2| ≤ |p.2|

instance : DecidableRel contribDesc := fun p q =>
  inferInstanceAs (Decidable (|q.2| ≤ |p.2|))

instance : IsTotal (String × ℚ) contribDesc := ⟨fun p q => le_total |q.2| |p.2|⟩

instance : IsTrans (String × ℚ) contribDesc :=
  ⟨fun _ _ _ h1 h2 => le_trans h2 h1⟩

/-- Step F of `calculate_imp_score`: `sorted_contributions` (the Python
`sorted` is stable; `insertionSort` is the stable sort on the same key). -/
def sorted_contributions (req : CalculateIMPRequest) : List (String × ℚ) :=
  List.insertionSort contribDesc (contributions req)

/-- Step F of `calculate_imp_score`: the loop takes `sorted_contributions[:8]`
and `continue`s past entries with `abs(contribution) < 0.01`. -/
def selected_contributions (req : CalculateIMPRequest) : List (String × ℚ) :=
  ((sorted_contributions req).take 8).filter fun p => !decide (|p.2| < (0.01 : ℚ))

/-- Python `stat_name.replace("_", " ").title()` on the lowercase stat keys. -/
def pyTitle (s : String) : String :=
  " ".intercalate ((s.splitOn "_").map String.capitalize)

/-- The body of the factor loop in Step F: display name, rounded raw value,
impact sign from the contribution, rounded absolute weight. -/
def mkContributingFactor (req : CalculateIMPRequest) (p : String × ℚ) :
    ContributingFactor :=
  { name := (STAT_DISPLAY_NAMES.lookup p.1).getD (pyTitle p.1)
    value := pyRound (((stat_values req).lookup p.1).getD 0) 2
    impact :=
      if p.2 > 1 then Impact.positive
      else if p.2 < -1 then Impact.negative
      else Impact.neutral
    weight := pyRound |((coefficients req).lookup p.1).getD 0| 4 }

/-- Step F of `calculate_imp_score`: the `contributing_factors` list. -/
def contributing_factors (req : CalculateIMPRequest) : List ContributingFactor :=
  (selected_contributions req).map (mkContributingFactor req)

/-- Step G of `calculate_imp_score`: `grade = _get_grade(final_imp)`. -/
def gradeOf (req : CalculateIMPRequest) : Grade := _get_grade (final_imp req)

/-- Step G of `calculate_imp_score`:
`percentile = _calculate_percentile_from_score(final_imp)`. -/
def percentileOf (req : CalculateIMPRequest) : ℤ :=
  _calculate_percentile_from_score (final_imp req)

/-- Step G of `calculate_imp_score`: the context-aware summary string. -/
def summaryOf (req : CalculateIMPRequest) : String :=
  let role_desc := _get_role_description (position req)
  match gradeOf req with
  | Grade.S => "Outstanding " ++ role_desc ++ " performance"
  | Grade.A => "Excellent " ++ role_desc ++ " performance"
  | Grade.B => "Good " ++ role_desc ++ " performance"
  | Grade.C => "Average " ++ role_desc ++ " performance"
  | Grade.D => "Below average " ++ role_desc ++ " performance"
  | Grade.F => "Poor " ++ role_desc ++ " performance"

/-- Python `calculate_imp_score` from `scoring.py`.  The impure
`datetime.now(timezone.utc).isoformat()` is passed in as `now`. -/
def calculate_imp_score (req : CalculateIMPRequest) (now : String) :
    CalculateIMPResponse :=
  { success := true
    data :=
      { imp_score := pyRound (final_imp req) 1
        grade := gradeOf req
        percentile := percentileOf req
        contributing_factors := contributing_factors req
        summary := summaryOf req }
    meta := { engine_version := ENGINE_VERSION, calculated_at := now } }

end ImpEngine

namespace OpenDota

/-- Python `PlayerMinimal` from `app/services/opendota.py`.  `net_worth` comes
straight from the OpenDota payload without a non-negativity guarantee, so it
is modelled as `ℤ`; `lane` is `Optional[int]`. -/
structure PlayerMinimal where
  hero_id : ℕ
  net_worth : ℤ
  lane : Option ℤ
  is_radiant : Bool
deriving DecidableEq

/-- Python `MatchData` from `app/services/opendota.py`. -/
structure MatchData where
  match_id : ℕ
  hero_id : ℕ
  hero_name : String
  kills : ℕ
  deaths : ℕ
  assists : ℕ
  gpm : ℕ
  xpm : ℕ
  net_worth : ℕ
  level : ℕ
  hero_damage : ℕ
  tower_damage : ℕ
  hero_healing : ℕ
  last_hits : ℕ
  denies : ℕ
  duration_seconds : ℕ
  is_radiant : Bool
  radiant_win : Bool
  player_slot : ℕ
  player_name : String
  lane : Option ℤ := none
  all_players : Option (List PlayerMinimal) := none
deriving DecidableEq

/-- The comparison of `sorted(..., key=lambda p: p.net_worth, reverse=True)`:
descending net worth (stable on ties). -/
def playerDesc (p q : PlayerMinimal) : Prop := q.net_worth ≤ p.net_worth

instance : DecidableRel playerDesc := fun p q =>
  inferInstanceAs (Decidable (q.net_worth ≤ p.net_worth))

instance : IsTotal PlayerMinimal playerDesc :=
  ⟨fun p q => le_total q.net_worth p.net_worth⟩

instance : IsTrans PlayerMinimal playerDesc :=
  ⟨fun _ _ _ h1 h2 => le_trans h2 h1⟩

/-- Python `teammates = [p for p in self.all_players if p.is_radiant == self.is_radiant]`. -/
def teammates (m : MatchData) (ps : List PlayerMinimal) : List PlayerMinimal :=
  ps.filter fun p => p.is_radiant == m.is_radiant

/-- Python `lane_partners = [p for p in teammates if p.lane == self.lane]`. -/
def lane_partners (m : MatchData) (ps : List PlayerMinimal) (lane : ℤ) :
    List PlayerMinimal :=
  (teammates m ps).filter fun p => p.lane == some lane

/-- The `roles` list of the team-wide fallback of `get_role`. -/
def ROLES : List String := ["carry", "mid", "offlane", "support", "hard_support"]

/-- The team-wide net-worth-ranking fallback at the end of `get_role`:
rank the teammates by net worth descending, find the index of the player
(`next(..., 4)` defaults to 4), and map rank to role.  `min rank 4 < 5`, so
the list index (modelled by `getD`) never falls through to its default. -/
def fallback_role (m : MatchData) (ps : List PlayerMinimal) : String :=
  let sorted_by_nw := List.insertionSort playerDesc (teammates m ps)
  let rank := (sorted_by_nw.findIdx? fun p => p.hero_id == m.hero_id).getD 4
  ROLES.getD (min rank 4) "carry"

/-- The GPM/XPM-based fallback used when `all_players is None`. -/
def gpm_fallback_role (m : MatchData) : String :=
  if m.gpm ≥ 600 then "carry"
  else if m.xpm ≥ 600 ∧ m.gpm ≥ 450 then "mid"
  else if m.gpm ≥ 400 then "offlane"
  else if m.assists ≥ 10 then "support"
  else "hard_support"

/-- Python `MatchData.get_role` from `app/services/opendota.py`. -/
def MatchData.get_role (self : MatchData) : String :=
  match self.all_players with
  | none => gpm_fallback_role self
  | some ps =>
    match self.lane with
    | some lane =>
      if 1 ≤ lane ∧ lane ≤ 3 then
        if lane = 2 then "mid"
        else
          let partners := lane_partners self ps lane
          if 2 ≤ partners.length then
            let sorted_by_nw := List.insertionSort playerDesc partners
            let is_highest_nw :=
              match sorted_by_nw with
              | p :: _ => p.hero_id == self.hero_id
              | [] => false
            if lane = 1 then
              if is_highest_nw then "carry" else "hard_support"
            else
              if is_highest_nw then "offlane" else "support"
          else fallback_role self ps
      else fallback_role self ps
    | none => fallback_role self ps

end OpenDota

namespace ImpEngine

/-- The example request pinned in the `json_schema_extra` block of `request.py`
(Invoker mid, 2400 s, win). -/
def example_request : CalculateIMPRequest :=
  { match_id := 7890123456
    player_slot := 0
    hero_id := 74
    hero_name := "Invoker"
    role := "mid"
    duration_seconds := 2400
    stats :=
      { kills := 12, deaths := 3, assists := 18, last_hits := 280, denies := 15,
        gpm := 620, xpm := 685, hero_damage := 32500, tower_damage := 4200,
        hero_healing := 0, net_worth := 24800, level := 25 }
    context :=
      { team_result := "win", game_mode := "ranked", avg_rank := 75,
        is_radiant := true } }

/-- The all-zero stat record of the degenerate-input scenario. -/
def zero_stats : MatchStats :=
  { kills := 0, deaths := 0, assists := 0, last_hits := 0, denies := 0, gpm := 0,
    xpm := 0, hero_damage := 0, tower_damage := 0, hero_healing := 0,
    net_worth := 0, level := 0 }

/-- The degenerate request: every stat counter zero, `duration_seconds = 0`,
`team_result = "loss"`. -/
def zero_request (role : String) : CalculateIMPRequest :=
  { match_id := 0, player_slot := 0, hero_id := 1, hero_name := "x", role := role,
    duration_seconds := 0, stats := zero_stats,
    context :=
      { team_result := "loss", game_mode := "ranked", avg_rank := 0,
        is_radiant := true } }

end ImpEngine

namespace OpenDota

/-- A radiant player entry: hero 10, net worth 100, alone in the safe lane. -/
def lone_self : PlayerMinimal :=
  { hero_id := 10, net_worth := 100, lane := some 1, is_radiant := true }

/-- A radiant team in which hero 10 is the only safe-lane occupant (and so
trivially its top net worth) while every teammate out-earns them. -/
def lone_team : List PlayerMinimal :=
  [lone_self,
   { hero_id := 20, net_worth := 200, lane := some 2, is_radiant := true },
   { hero_id := 30, net_worth := 300, lane := some 3, is_radiant := true },
   { hero_id := 40, net_worth := 400, lane := some 3, is_radiant := true },
   { hero_id := 50, net_worth := 500, lane := some 2, is_radiant := true }]

/-- Match data for hero 10 of `lone_team`: safe lane, full player data. -/
def lone_match : MatchData :=
  { match_id := 1, hero_id := 10, hero_name := "Morphling", kills := 0, deaths := 0,
    assists := 0, gpm := 0, xpm := 0, net_worth := 100, level := 1, hero_damage := 0,
    tower_damage := 0, hero_healing := 0, last_hits := 0, denies := 0,
    duration_seconds := 0, is_radiant := true, radiant_win := false, player_slot := 0,
    player_name := "p", lane := some 1, all_players := some lone_team }

/-- Match data whose `all_players` list does not contain the player at all,
so the team-wide net-worth ranking cannot find them. -/
def unranked_match : MatchData :=
  { lone_match with lane := none, all_players := some [] }

/-- A radiant safe-lane duo: hero 8 strictly out-earns its lane partner. -/
def duo_self : PlayerMinimal :=
  { hero_id := 8, net_worth := 9000, lane := some 1, is_radiant := true }

/-- A radiant team with two safe-lane occupants, hero 8 strictly richest. -/
def duo_team : List PlayerMinimal :=
  [{ hero_id := 5, net_worth := 2000, lane := some 1, is_radiant := true },
   duo_self,
   { hero_id := 20, net_worth := 5000, lane := some 2, is_radiant := true },
   { hero_id := 30, net_worth := 4000, lane := some 3, is_radiant := true },
   { hero_id := 40, net_worth := 3000, lane := some 3, is_radiant := true }]

/-- Match data for hero 8 of `duo_team`. -/
def duo_match : MatchData :=
  { lone_match with hero_id := 8, lane := some 1, all_players := some duo_team }

end OpenDota

/-! ## Helper lemmas -/

namespace ImpEngine

/-- A successful association-list lookup names an element of the list. -/
theorem mem_of_lookup_eq_some {α β : Type} [BEq α] [LawfulBEq α]
    {l : List (α × β)} {a : α} {b : β} (h : l.lookup a = some b) : (a, b) ∈ l := by
  induction l with
  | nil => simp [List.lookup] at h
  | cons p t ih =>
    obtain ⟨k, v⟩ := p
    rw [List.lookup] at h
    cases hk : a == k with
    | true =>
      simp only [hk] at h
      obtain rfl : v = b := by simpa using h
      obtain rfl : a = k := by simpa using hk
      exact List.mem_cons_self _ _
    | false =>
      simp only [hk] at h
      exact List.mem_cons_of_mem _ (ih h)

/-- Rounding via `pyRoundInt` never rounds below the floor. -/
theorem floor_le_pyRoundInt (x : ℚ) : ⌊x⌋ ≤ pyRoundInt x := by
  rw [pyRoundInt]
  split_ifs with h1 h2
  · exact le_refl _
  · omega
  · rw [round_eq]
    exact Int.floor_le_floor (by linarith)

/-- Rounding via `pyRoundInt` is bounded below by any integer lower bound of its input. -/
theorem le_pyRoundInt {n : ℤ} {x : ℚ} (h : (n : ℚ) ≤ x) : n ≤ pyRoundInt x :=
  le_trans (Int.le_floor.mpr h) (floor_le_pyRoundInt x)

/-- Rounding via `pyRoundInt` is bounded above by any integer upper bound of its input. -/
theorem pyRoundInt_le {n : ℤ} {x : ℚ} (h : x ≤ (n : ℚ)) : pyRoundInt x ≤ n := by
  rw [pyRoundInt]
  have hfl : ⌊x⌋ ≤ n := by
    calc ⌊x⌋ ≤ ⌊(n : ℚ)⌋ := Int.floor_le_floor h
    _ = n := Int.floor_intCast n
  split_ifs with h1 h2
  · exact hfl
  · have hx : (⌊x⌋ : ℚ) + 1 / 2 ≤ (n : ℚ) := by
      have := Int.floor_le x
      linarith [h1, h]
    have : ⌊x⌋ < n := by exact_mod_cast lt_of_lt_of_le (by linarith : (⌊x⌋ : ℚ) < ⌊x⌋ + 1 / 2) hx
    omega
  · rw [round_eq]
    calc ⌊x + 1 / 2⌋ ≤ ⌊(n : ℚ) + 1 / 2⌋ := Int.floor_le_floor (by linarith)
    _ = n + ⌊(1 / 2 : ℚ)⌋ := Int.floor_int_add n _
    _ = n := by norm_num

/-- Rounding to one decimal keeps any value of `[-65, 65]` inside `[-65, 65]`. -/
theorem pyRound_one_bounds {x : ℚ} (h1 : -65 ≤ x) (h2 : x ≤ 65) :
    -65 ≤ pyRound x 1 ∧ pyRound x 1 ≤ 65 := by
  have hlo : (-650 : ℤ) ≤ pyRoundInt (x * 10 ^ 1) := by
    apply le_pyRoundInt
    push_cast
    linarith
  have hhi : pyRoundInt (x * 10 ^ 1) ≤ (650 : ℤ) := by
    apply pyRoundInt_le
    push_cast
    linarith
  have hloQ : ((-650 : ℤ) : ℚ) ≤ (pyRoundInt (x * 10 ^ 1) : ℚ) := Int.cast_le.mpr hlo
  have hhiQ : ((pyRoundInt (x * 10 ^ 1) : ℤ) : ℚ) ≤ ((650 : ℤ) : ℚ) := Int.cast_le.mpr hhi
  push_cast at hloQ hhiQ
  constructor
  · rw [pyRound, le_div_iff₀ (by norm_num : (0 : ℚ) < 10 ^ 1)]
    linarith
  · rw [pyRound, div_le_iff₀ (by norm_num : (0 : ℚ) < 10 ^ 1)]
    linarith

end ImpEngine

/-! ## Claim C1: the returned score lies in `[-65, 65]` -/

namespace ImpEngine

/-- C1.  For every input to the score calculator, the clamped score lies in
`[IMP_MIN, IMP_MAX] = [-65, 65]`, the returned `imp_score` is that clamped
value rounded to one decimal, and rounding keeps it inside `[-65, 65]`. -/
theorem imp_score_within_bounds (req : CalculateIMPRequest) (now : String) :
    IMP_MIN ≤ final_imp req ∧ final_imp req ≤ IMP_MAX ∧
    (calculate_imp_score req now).data.imp_score = pyRound (final_imp req) 1 ∧
    -65 ≤ (calculate_imp_score req now).data.imp_score ∧
    (calculate_imp_score req now).data.imp_score ≤ 65 := by
  have hlo : IMP_MIN ≤ final_imp req := le_max_left _ _
  have hhi : final_imp req ≤ IMP_MAX := by
    apply max_le
    · norm_num [IMP_MIN, IMP_MAX]
    · exact min_le_left _ _
  have hlo65 : (-65 : ℚ) ≤ final_imp req := by
    have : IMP_MIN = (-65 : ℚ) := by norm_num [IMP_MIN]
    linarith [hlo, this.ge]
  have hhi65 : final_imp req ≤ 65 := by
    have : IMP_MAX = (65 : ℚ) := by norm_num [IMP_MAX]
    linarith [hhi]
  obtain ⟨h1, h2⟩ := pyRound_one_bounds hlo65 hhi65
  exact ⟨hlo, hhi, rfl, h1, h2⟩

end ImpEngine

/-! ## Claim C2: the grade thresholds partition the score range -/

namespace ImpEngine

/-- C2.  The grade is a total deterministic function of the clamped score:
`S` iff `score ≥ 40`, `A` iff `20 ≤ score < 40`, `B` iff `5 ≤ score < 20`,
`C` iff `-5 ≤ score < 5`, `D` iff `-20 ≤ score < -5`, and `F` otherwise;
every score receives exactly one grade. -/
theorem grade_threshold_partition (score : ℚ) :
    (_get_grade score = Grade.S ↔ 40 ≤ score) ∧
    (_get_grade score = Grade.A ↔ 20 ≤ score ∧ score < 40) ∧
    (_get_grade score = Grade.B ↔ 5 ≤ score ∧ score < 20) ∧
    (_get_grade score = Grade.C ↔ -5 ≤ score ∧ score < 5) ∧
    (_get_grade score = Grade.D ↔ -20 ≤ score ∧ score < -5) ∧
    (_get_grade score = Grade.F ↔ score < -20) ∧
    (∃! g : Grade, _get_grade score = g) := by
  refine ⟨?_, ?_, ?_, ?_, ?_, ?_, ⟨_get_grade score, rfl, fun y hy => hy.symm⟩⟩ <;>
    · simp only [_get_grade, GRADE_THRESHOLDS, gradeFromThresholds]
      split_ifs <;> simp_all <;>
        first
          | linarith
          | (intros; linarith)

end ImpEngine

/-! ## Claim C3: the percentile map truncates, it does not round -/

namespace ImpEngine

/-- C3 counterexample.  At the clamped score `3/4`, the code reports
percentile `50` (Python `int()` truncates), while
`round(clamp((score+65)/130 × 100, 0, 100))` is `51`; the claimed equation
fails. -/
theorem percentile_truncation_counterexample :
    _calculate_percentile_from_score (3 / 4) = 50 ∧
    round (_clamp (((3 / 4 : ℚ) + 65) / 130 * 100) 0 100) = 51 ∧
    ¬(_calculate_percentile_from_score (3 / 4)
        = round (_clamp (((3 / 4 : ℚ) + 65) / 130 * 100) 0 100)) := by
  have hc : _clamp (((3 / 4 : ℚ) + 65) / 130 * 100) 0 100 = 1315 / 26 := by
    rw [_clamp]
    rw [min_eq_right (by norm_num), max_eq_right (by norm_num)]
    norm_num
  have hc' : _clamp (((3 / 4 : ℚ) - IMP_MIN) / (IMP_MAX - IMP_MIN) * 100) 0 100
      = 1315 / 26 := by
    rw [_clamp, IMP_MIN, IMP_MAX]
    rw [min_eq_right (by norm_num), max_eq_right (by norm_num)]
    norm_num
  have h1 : _calculate_percentile_from_score (3 / 4) = 50 := by
    rw [_calculate_percentile_from_score, hc', pyInt, if_pos (by norm_num)]
    rw [Int.floor_eq_iff]
    norm_num
  have h2 : round (_clamp (((3 / 4 : ℚ) + 65) / 130 * 100) 0 100) = 51 := by
    rw [hc, round_eq]
    rw [Int.floor_eq_iff]
    norm_num
  exact ⟨h1, h2, by rw [h1, h2]; norm_num⟩

/-- C3 amended.  The reported percentile is the *truncation* (equivalently,
since the clamped value is non-negative, the floor) of the linear rescale
`clamp((score+65)/130 × 100, 0, 100)`, not its rounding. -/
theorem percentile_floor_of_linear_rescale (score : ℚ) :
    _calculate_percentile_from_score score
      = ⌊_clamp ((score + 65) / 130 * 100) 0 100⌋ := by
  have harg : (score - IMP_MIN) / (IMP_MAX - IMP_MIN) * 100
      = (score + 65) / 130 * 100 := by
    rw [IMP_MIN, IMP_MAX]
    norm_num
  have h0 : (0 : ℚ) ≤ _clamp ((score + 65) / 130 * 100) 0 100 := le_max_left _ _
  rw [_calculate_percentile_from_score, harg, pyInt, if_pos h0]

end ImpEngine

/-! ## Facts about the contribution map and the degenerate all-zero input -/

namespace ImpEngine

/-- Every entry of the contribution map comes from a coefficient-table entry
that is neither the intercept nor the reserved win/loss key, paired with the
looked-up stat value. -/
theorem contributions_mem {req : CalculateIMPRequest} {p : String × ℚ}
    (hp : p ∈ contributions req) :
    p.1 ≠ "intercept" ∧ p.1 ≠ "is_victory" ∧
    ∃ c v, (p.1, c) ∈ coefficients req ∧
      (stat_values req).lookup p.1 = some v ∧ p.2 = v * c := by
  simp only [contributions, List.mem_filterMap] at hp
  obtain ⟨q, hq, hfq⟩ := hp
  by_cases hqi : q.1 = "intercept" ∨ q.1 = "is_victory"
  · rw [if_pos hqi] at hfq
    cases hfq
  · rw [if_neg hqi] at hfq
    push_neg at hqi
    split at hfq
    next v hl =>
      obtain rfl : (q.1, v * q.2) = p := by simpa using hfq
      exact ⟨hqi.1, hqi.2, q.2, v, by simpa using hq, hl, rfl⟩
    next hl => cases hfq

/-- On the all-zero request every derived stat value is `0`: the 1-minute
duration floor and the zero-net-worth guard absorb the degenerate input. -/
theorem stat_values_zero_request (role : String) :
    stat_values (zero_request role) =
      [("kills", 0), ("deaths", 0), ("assists", 0), ("gpm", 0), ("xpm", 0),
       ("networth", 0), ("level", 0), ("hero_damage", 0), ("tower_damage", 0),
       ("hero_healing", 0), ("last_hits", 0), ("denies", 0), ("kills_per_min", 0),
       ("deaths_per_min", 0), ("assists_per_min", 0), ("hero_damage_per_min", 0),
       ("tower_damage_per_min", 0), ("healing_per_min", 0), ("kda_ratio", 0),
       ("ka_ratio", 0), ("death_rate", 0), ("farm_efficiency", 0),
       ("damage_efficiency", 0), ("duration_minutes", 0)] := by
  simp [stat_values, zero_request, zero_stats, duration_minutes, safe_duration]

/-- Every contribution of the all-zero request is `0`. -/
theorem contributions_zero (role : String) :
    ∀ p ∈ contributions (zero_request role), p.2 = 0 := by
  intro p hp
  obtain ⟨-, -, c, v, -, hl, hpv⟩ := contributions_mem hp
  have hv : v = 0 := by
    have hmem := mem_of_lookup_eq_some hl
    rw [stat_values_zero_request] at hmem
    have hall : ∀ q ∈ ([("kills", 0), ("deaths", 0), ("assists", 0), ("gpm", 0),
        ("xpm", 0), ("networth", 0), ("level", 0), ("hero_damage", 0),
        ("tower_damage", 0), ("hero_healing", 0), ("last_hits", 0), ("denies", 0),
        ("kills_per_min", 0), ("deaths_per_min", 0), ("assists_per_min", 0),
        ("hero_damage_per_min", 0), ("tower_damage_per_min", 0),
        ("healing_per_min", 0), ("kda_ratio", 0), ("ka_ratio", 0),
        ("death_rate", 0), ("farm_efficiency", 0), ("damage_efficiency", 0),
        ("duration_minutes", 0)] : List (String × ℚ)), q.2 = 0 := by
      intro q hq
      fin_cases hq <;> rfl
    simpa using hall (p.1, v) hmem
  rw [hpv, hv, zero_mul]

/-- On the all-zero loss request the raw score is the selected table
intercept plus the loss penalty. -/
theorem raw_imp_zero_request (role : String) :
    raw_imp (zero_request role)
      = ((coefficients (zero_request role)).lookup "intercept").getD 0
          + LOSS_PENALTY := by
  have hsum : ((contributions (zero_request role)).map Prod.snd).sum = 0 := by
    apply List.sum_eq_zero
    intro x hx
    obtain ⟨p, hp, rfl⟩ := List.mem_map.mp hx
    exact contributions_zero role p hp
  have hwin : is_winner (zero_request role) = false := rfl
  rw [raw_imp, hsum, hwin, add_zero, if_neg (by simp)]

/-- On the all-zero request every contribution is below the `0.01` threshold,
so the selected factor list is empty. -/
theorem selected_contributions_zero_request (role : String) :
    selected_contributions (zero_request role) = [] := by
  rw [selected_contributions, List.filter_eq_nil_iff]
  intro p hp
  have hp' : p ∈ contributions (zero_request role) :=
    (List.mem_insertionSort _).mp (List.mem_of_mem_take hp)
  have h0 := contributions_zero role p hp'
  simp [h0]
  norm_num

end ImpEngine

/-! ## Claim C5: the win/loss adjustment and the factor list -/

namespace ImpEngine

/-- C5 counterexample.  On the all-zero loss request the win/loss penalty
does adjust the score (second conjunct), yet the output factor list is
empty — so the win/loss adjustment is *not* reported in the output as its
own separate factor. -/
theorem winloss_factor_absent_counterexample :
    (calculate_imp_score (zero_request "carry")
        "2025-01-01T00:00:00+00:00").data.contributing_factors = [] ∧
    raw_imp (zero_request "carry")
      = ((coefficients (zero_request "carry")).lookup "intercept").getD 0
          + LOSS_PENALTY ∧
    LOSS_PENALTY ≠ 0 := by
  refine ⟨?_, raw_imp_zero_request "carry", by norm_num [LOSS_PENALTY]⟩
  show contributing_factors (zero_request "carry") = []
  rw [contributing_factors, selected_contributions_zero_request, List.map_nil]

/-- C5 amended.  The factor list is built solely from the per-feature
contribution map, which excludes both the intercept and the reserved
win/loss key; the win/loss adjustment only moves the score and never appears
in the factor list. -/
theorem factors_exclude_winloss (req : CalculateIMPRequest) (now : String) :
    (calculate_imp_score req now).data.contributing_factors
      = (selected_contributions req).map (mkContributingFactor req) ∧
    (∀ p ∈ contributions req, p.1 ≠ "is_victory" ∧ p.1 ≠ "intercept") ∧
    (∀ p ∈ selected_contributions req, p ∈ contributions req) := by
  refine ⟨rfl, ?_, ?_⟩
  · intro p hp
    obtain ⟨h1, h2, -⟩ := contributions_mem hp
    exact ⟨h2, h1⟩
  · intro p hp
    exact (List.mem_insertionSort _).mp
      (List.mem_of_mem_take (List.mem_of_mem_filter hp))

/-- C5 witness: the factor-list link of `factors_exclude_winloss` at the
all-zero request. -/
theorem factors_exclude_winloss_witness :
    (calculate_imp_score (zero_request "carry")
        "2025-01-01T00:00:00+00:00").data.contributing_factors
      = (selected_contributions (zero_request "carry")).map
          (mkContributingFactor (zero_request "carry")) :=
  (factors_exclude_winloss (zero_request "carry") "2025-01-01T00:00:00+00:00").1

end ImpEngine

/-! ## Claim C6: determinism of the output record -/

namespace ImpEngine

/-- C6 counterexample.  Two calls on the identical request are *not*
bit-identical output records: `meta.calculated_at` carries the wall-clock
timestamp of each call. -/
theorem output_not_bit_identical_counterexample :
    calculate_imp_score example_request "2025-01-01T00:00:00+00:00"
      ≠ calculate_imp_score example_request "2025-01-01T00:00:01+00:00" := by
  intro h
  have hmeta := congrArg (fun r => r.meta.calculated_at) h
  simp [calculate_imp_score] at hmeta

/-- C6 amended.  The scoring computation is deterministic in everything
except the timestamp: the `data` payload, the `success` flag and the engine
version are functions of the request alone. -/
theorem scoring_data_deterministic (req : CalculateIMPRequest) (t1 t2 : String) :
    (calculate_imp_score req t1).data = (calculate_imp_score req t2).data ∧
    (calculate_imp_score req t1).success = (calculate_imp_score req t2).success ∧
    (calculate_imp_score req t1).meta.engine_version
      = (calculate_imp_score req t2).meta.engine_version :=
  ⟨rfl, rfl, rfl⟩

end ImpEngine

/-! ## Claim C7: the pre-clamp win/loss delta -/

namespace ImpEngine

/-- C7.  Identical stats scored as a win and as a loss differ pre-clamp by
exactly `WIN_BONUS - LOSS_PENALTY = 12 - (-8) = 20`; the contribution terms
and the selected table are unchanged. -/
theorem win_loss_delta_twenty (req : CalculateIMPRequest) :
    contributions { req with context := { req.context with team_result := "win" } }
      = contributions { req with context := { req.context with team_result := "loss" } } ∧
    coefficients { req with context := { req.context with team_result := "win" } }
      = coefficients { req with context := { req.context with team_result := "loss" } } ∧
    raw_imp { req with context := { req.context with team_result := "win" } }
      - raw_imp { req with context := { req.context with team_result := "loss" } }
      = WIN_BONUS - LOSS_PENALTY ∧
    WIN_BONUS - LOSS_PENALTY = 20 := by
  refine ⟨rfl, rfl, ?_, by norm_num [WIN_BONUS, LOSS_PENALTY]⟩
  rw [raw_imp, raw_imp]
  have hw : is_winner { req with context := { req.context with team_result := "win" } }
      = true := rfl
  have hl : is_winner { req with context := { req.context with team_result := "loss" } }
      = false := rfl
  rw [hw, hl, if_pos rfl, if_neg (by simp)]
  have key : ∀ a b : ℚ, a + b + WIN_BONUS - (a + b + LOSS_PENALTY)
      = WIN_BONUS - LOSS_PENALTY := by
    intro a b
    ring
  exact key _ _

end ImpEngine

/-! ## Claim C8: the all-zero, zero-duration loss input -/

namespace ImpEngine

/-- C8.  On the all-zero, zero-duration loss input the scoring function
totally succeeds: every feature contribution is `0`, the raw score is the
intercept of the selected table plus the loss penalty, and the returned score is
that value clamped into `[-65, 65]` (and rounded to one decimal for
output). -/
theorem zero_input_no_failure (role : String) (now : String) :
    (calculate_imp_score (zero_request role) now).success = true ∧
    (∀ p ∈ contributions (zero_request role), p.2 = 0) ∧
    raw_imp (zero_request role)
      = ((coefficients (zero_request role)).lookup "intercept").getD 0
          + LOSS_PENALTY ∧
    (calculate_imp_score (zero_request role) now).data.imp_score
      = pyRound (_clamp (((coefficients (zero_request role)).lookup
          "intercept").getD 0 + LOSS_PENALTY) IMP_MIN IMP_MAX) 1 := by
  refine ⟨rfl, contributions_zero role, raw_imp_zero_request role, ?_⟩
  show pyRound (final_imp (zero_request role)) 1 = _
  rw [final_imp, raw_imp_zero_request role]

/-- C8 witness: the success flag of `zero_input_no_failure` at the carry
role. -/
theorem zero_input_no_failure_witness :
    (calculate_imp_score (zero_request "carry")
        "2025-01-01T00:00:00+00:00").success = true :=
  (zero_input_no_failure "carry" "2025-01-01T00:00:00+00:00").1

end ImpEngine

/-! ## Claim C10: the contributing-factor ranking -/

namespace ImpEngine

/-- On a list sorted by a relation along which the kept-predicate is
downward closed, filtering commutes with `take`. -/
theorem filter_take_of_pairwise {α : Type} {R : α → α → Prop} {p : α → Bool}
    (hdc : ∀ a b, R a b → p b = true → p a = true) :
    ∀ (l : List α) (n : ℕ), l.Pairwise R →
      (l.take n).filter p = (l.filter p).take n := by
  intro l
  induction l with
  | nil =>
    intro n _
    simp
  | cons a t ih =>
    intro n hl
    cases n with
    | zero => simp
    | succ m =>
      rw [List.take_succ_cons, List.filter_cons, List.filter_cons]
      by_cases hpa : p a = true
      · rw [if_pos hpa, if_pos hpa, List.take_succ_cons]
        rw [ih m (List.pairwise_cons.mp hl).2]
      · rw [if_neg hpa, if_neg hpa]
        have hnone : ∀ b ∈ t, p b = false := by
          intro b hb
          cases hpb : p b with
          | false => rfl
          | true =>
            exact absurd (hdc a b ((List.pairwise_cons.mp hl).1 b hb) hpb) hpa
        have h1 : t.filter p = [] :=
          List.filter_eq_nil_iff.mpr fun b hb => by simp [hnone b hb]
        have h2 : (t.take m).filter p = [] :=
          List.filter_eq_nil_iff.mpr fun b hb => by
            simp [hnone b (List.mem_of_mem_take hb)]
        rw [h1, h2, List.take_nil]

/-- A `filterMap` that preserves first components yields a key list that is
a subsequence of the original key list. -/
theorem filterMap_keys_sublist {α β γ : Type} (f : α × β → Option (α × γ))
    (hf : ∀ x y, f x = some y → y.1 = x.1) :
    ∀ l : List (α × β),
      List.Sublist ((l.filterMap f).map Prod.fst) (l.map Prod.fst) := by
  intro l
  induction l with
  | nil => simp
  | cons x t ih =>
    rw [List.filterMap_cons, List.map_cons]
    cases hfx : f x with
    | none => exact ih.cons x.1
    | some y =>
      rw [List.map_cons, hf x y hfx]
      exact ih.cons₂ x.1

/-- C10.  The output factor list is the image of the selected contribution
pairs; those are sorted by descending absolute contribution, number at most
8, all clear the `0.01` threshold, taking 8 then filtering equals filtering
then taking 8, ties keep the original coefficient-table order (stable
sort), and the contribution map itself lists keys in table order. -/
theorem factor_ranking_spec (req : CalculateIMPRequest) (now : String) :
    (calculate_imp_score req now).data.contributing_factors
      = (selected_contributions req).map (mkContributingFactor req) ∧
    (selected_contributions req).length ≤ 8 ∧
    (∀ p ∈ selected_contributions req, ¬(|p.2| < (0.01 : ℚ))) ∧
    (selected_contributions req).Pairwise contribDesc ∧
    selected_contributions req
      = ((sorted_contributions req).filter fun p =>
          !decide (|p.2| < (0.01 : ℚ))).take 8 ∧
    (∀ a b : String × ℚ, List.Sublist [a, b] (contributions req) →
      |a.2| = |b.2| → List.Sublist [a, b] (sorted_contributions req)) ∧
    (sorted_contributions req).Perm (contributions req) ∧
    List.Sublist ((contributions req).map Prod.fst)
      ((coefficients req).map Prod.fst) := by
  have hsorted : (sorted_contributions req).Pairwise contribDesc :=
    List.sorted_insertionSort contribDesc (contributions req)
  refine ⟨rfl, ?_, ?_, ?_, ?_, ?_, ?_, ?_⟩
  · exact le_trans (List.length_filter_le _ _)
      (List.length_take_le 8 (sorted_contributions req))
  · intro p hp
    have := List.of_mem_filter hp
    simpa using this
  · exact hsorted.sublist
      ((List.filter_sublist _).trans (List.take_sublist _ _))
  · exact filter_take_of_pairwise
      (fun a b hR hb => by
        simp only [Bool.not_eq_eq_eq_not, Bool.not_true, decide_eq_false_iff_not,
          not_lt] at hb ⊢
        exact le_trans hb hR)
      (sorted_contributions req) 8 hsorted
  · intro a b hsub heq
    exact List.pair_sublist_insertionSort (le_of_eq heq.symm) hsub
  · exact List.perm_insertionSort contribDesc (contributions req)
  · apply filterMap_keys_sublist
    intro x y h
    by_cases hxi : x.1 = "intercept" ∨ x.1 = "is_victory"
    · rw [if_pos hxi] at h
      cases h
    · rw [if_neg hxi] at h
      split at h
      next v hl =>
        obtain rfl : (x.1, v * x.2) = y := by simpa using h
        rfl
      next hl => cases h

/-- C10 witness: the length bound of `factor_ranking_spec` at the pinned
example request. -/
theorem factor_ranking_spec_witness :
    (selected_contributions example_request).length ≤ 8 :=
  (factor_ranking_spec example_request "2025-01-01T00:00:00+00:00").2.1

end ImpEngine

/-! ## Claims C4 and C9: the role classifier -/

namespace OpenDota

/-- The team-wide fallback always produces one of the five role strings. -/
theorem fallback_role_mem (m : MatchData) (ps : List PlayerMinimal) :
    fallback_role m ps ∈ ROLES := by
  rw [fallback_role]
  have hall : ∀ n : ℕ, ROLES.getD (min n 4) "carry" ∈ ROLES := by
    intro n
    have h4 : min n 4 ≤ 4 := Nat.min_le_right n 4
    set j := min n 4 with hj
    interval_cases j <;> decide
  exact hall _

/-- The GPM-based fallback always produces one of the five role strings. -/
theorem gpm_fallback_role_mem (m : MatchData) : gpm_fallback_role m ∈ ROLES := by
  rw [gpm_fallback_role]
  split_ifs <;> decide

/-- C9 counterexample.  When the team list does not contain the player (so
the team-wide ranking cannot find them), `get_role` yields `hard_support`
and the position lookup resolves it to Position 5 — not to the claimed
default Position 1. -/
theorem unranked_player_position5_counterexample :
    unranked_match.all_players = some [] ∧
    unranked_match.get_role = "hard_support" ∧
    ImpEngine._get_position unranked_match.get_role = 5 ∧
    ¬ ImpEngine._get_position unranked_match.get_role = 1 := by
  decide

/-- C9 amended.  Role resolution is total: the classifier always returns one
of the five role strings and the position lookup always returns a position
in `1..5`; an *unknown role string* defaults to Position 1, but a player
missing from the team ranking resolves through the rank-4 default (Position
5), not Position 1. -/
theorem role_resolution_total :
    (∀ m : MatchData, m.get_role ∈ ROLES) ∧
    (∀ role : String, 1 ≤ ImpEngine._get_position role ∧
      ImpEngine._get_position role ≤ 5) ∧
    (∀ role : String, role ∈ ROLES ∨ ImpEngine._get_position role = 1) := by
  refine ⟨?_, ?_, ?_⟩
  · intro m
    cases hall : m.all_players with
    | none =>
      simp only [MatchData.get_role, hall]
      exact gpm_fallback_role_mem m
    | some ps =>
      cases hlane : m.lane with
      | none =>
        simp only [MatchData.get_role, hall, hlane]
        exact fallback_role_mem m ps
      | some lane =>
        simp only [MatchData.get_role, hall, hlane]
        split_ifs <;> first | decide | exact fallback_role_mem m ps
  · intro role
    rw [ImpEngine._get_position]
    cases hl : ImpEngine.ROLE_TO_POSITION.lookup role with
    | none => simp
    | some v =>
      have hmem := ImpEngine.mem_of_lookup_eq_some hl
      have hall : ∀ q ∈ ImpEngine.ROLE_TO_POSITION, 1 ≤ q.2 ∧ q.2 ≤ 5 := by
        intro q hq
        fin_cases hq <;> exact ⟨by norm_num, by norm_num⟩
      simpa using hall (role, v) hmem
  · intro role
    by_cases h1 : role = "carry"
    · exact Or.inl (by rw [h1]; decide)
    by_cases h2 : role = "mid"
    · exact Or.inl (by rw [h2]; decide)
    by_cases h3 : role = "offlane"
    · exact Or.inl (by rw [h3]; decide)
    by_cases h4 : role = "support"
    · exact Or.inl (by rw [h4]; decide)
    by_cases h5 : role = "hard_support"
    · exact Or.inl (by rw [h5]; decide)
    right
    have e1 : (role == "carry") = false := beq_eq_false_iff_ne.mpr h1
    have e2 : (role == "mid") = false := beq_eq_false_iff_ne.mpr h2
    have e3 : (role == "offlane") = false := beq_eq_false_iff_ne.mpr h3
    have e4 : (role == "support") = false := beq_eq_false_iff_ne.mpr h4
    have e5 : (role == "hard_support") = false := beq_eq_false_iff_ne.mpr h5
    simp [ImpEngine._get_position, ImpEngine.ROLE_TO_POSITION, List.lookup,
      e1, e2, e3, e4, e5]

/-- C9 witness: the classifier-totality part of `role_resolution_total` at a
concrete match. -/
theorem role_resolution_total_witness : unranked_match.get_role ∈ ROLES :=
  role_resolution_total.1 unranked_match

/-- C4 counterexample.  Hero 10 occupies the safe lane alone — so their net
worth is (trivially) the highest among the safe-lane occupants of their
team — yet, because fewer than two teammates share the lane, the classifier
falls back to the team-wide net-worth ranking and resolves hero 10 to
`hard_support` (Position 5), not Carry. -/
theorem safe_lane_lone_top_counterexample :
    lone_match.lane = some 1 ∧
    lone_self ∈ lone_team ∧
    lone_self.lane = some 1 ∧
    lone_self.hero_id = lone_match.hero_id ∧
    (∀ q ∈ lone_team, q.is_radiant = lone_match.is_radiant → q.lane = some 1 →
      q.net_worth ≤ lone_self.net_worth) ∧
    lone_match.get_role = "hard_support" ∧
    ImpEngine._get_position lone_match.get_role = 5 := by
  decide

/-- C4 amended.  When full player data is present, the lane of the player is the
safe lane, *at least two* teammates occupy that lane, and their net
worth is strictly highest among those occupants, the classifier resolves
Carry (Position 1) — never Hard Support. -/
theorem safe_lane_top_networth_carry
    (m : MatchData) (ps : List PlayerMinimal) (self : PlayerMinimal)
    (hall : m.all_players = some ps)
    (hlane : m.lane = some 1)
    (hmem : self ∈ ps)
    (hrad : self.is_radiant = m.is_radiant)
    (hslane : self.lane = some 1)
    (hid : self.hero_id = m.hero_id)
    (htwo : 2 ≤ (lane_partners m ps 1).length)
    (hmax : ∀ q ∈ lane_partners m ps 1, q ≠ self →
      q.net_worth < self.net_worth) :
    m.get_role = "carry" ∧ ImpEngine._get_position m.get_role = 1 := by
  have hself_partner : self ∈ lane_partners m ps 1 := by
    rw [lane_partners, List.mem_filter]
    refine ⟨?_, by simp [hslane]⟩
    rw [teammates, List.mem_filter]
    exact ⟨hmem, by simp [hrad]⟩
  obtain ⟨h, t, hht⟩ : ∃ h t,
      List.insertionSort playerDesc (lane_partners m ps 1) = h :: t := by
    cases hs : List.insertionSort playerDesc (lane_partners m ps 1) with
    | nil =>
      have hlen := List.length_insertionSort playerDesc (lane_partners m ps 1)
      rw [hs] at hlen
      simp at hlen
      omega
    | cons h t => exact ⟨h, t, rfl⟩
  have hhead : h = self := by
    have hsorted : (h :: t).Pairwise playerDesc := by
      rw [← hht]
      exact List.sorted_insertionSort playerDesc _
    have hh_mem : h ∈ lane_partners m ps 1 := by
      have hmem' : h ∈ List.insertionSort playerDesc (lane_partners m ps 1) := by
        rw [hht]
        exact List.mem_cons_self _ _
      exact (List.mem_insertionSort _).mp hmem'
    have hself_sorted : self ∈ h :: t := by
      rw [← hht]
      exact (List.mem_insertionSort _).mpr hself_partner
    by_cases hhs : h = self
    · exact hhs
    exfalso
    have hlt : h.net_worth < self.net_worth := hmax h hh_mem hhs
    rcases List.mem_cons.mp hself_sorted with heq | hmem_t
    · exact hhs heq.symm
    · have hle : playerDesc h self := (List.pairwise_cons.mp hsorted).1 self hmem_t
      rw [playerDesc] at hle
      omega
  have hrole : m.get_role = "carry" := by
    simp only [MatchData.get_role, hall, hlane]
    rw [if_pos (by decide), if_neg (by decide), if_pos htwo, hht]
    simp [hhead, hid]
  refine ⟨hrole, ?_⟩
  rw [hrole]
  rfl

/-- C4 witness: `safe_lane_top_networth_carry` at the concrete safe-lane duo
in which hero 8 strictly out-earns its lane partner. -/
theorem safe_lane_top_networth_carry_witness :
    duo_match.get_role = "carry" ∧
    ImpEngine._get_position duo_match.get_role = 1 :=
  safe_lane_top_networth_carry duo_match duo_team duo_self rfl rfl (by decide)
    rfl rfl rfl (by decide) (by decide)

end OpenDota
